import Mathlib

/-!
Shallow embedding of the WhatsApp AI bot's core logic:

* `app/utils/file_parser.py` — `load_knowledge_from_directory` (knowledge-base
  loader over a directory listing);
* `app/services/deepseek_service.py` — history store and `generate_ai_response`
  (Strategy A: system context as a first history message);
* `app/services/gemini_service.py` — system-instruction assembly, history store
  and `generate_ai_response` (Strategy B: system context bound to the model at
  startup);
* `app/utils/whatsapp_utils.py` — `generate_response` (provider router).

External effects are made explicit: the shelve databases become store values
threaded through the functions, and each outbound AI exchange becomes a
`backend` parameter returning either a response value or a raised exception.
-/

/-- Python's `c.lower()` for a single character, restricted to ASCII (all
filenames and configuration values appearing in the verified properties are
ASCII). -/
def lowerChar (c : Char) : Char :=
  if 'A' ≤ c ∧ c ≤ 'Z' then Char.ofNat (c.toNat + 32) else c

/-- Python's `s.lower()` (ASCII model). -/
def pyLower (s : String) : String := String.mk (s.toList.map lowerChar)

/-- Python's `s.strip()`: drop leading and trailing whitespace. -/
def pyStrip (s : String) : String :=
  String.mk (((s.toList.dropWhile Char.isWhitespace).reverse.dropWhile
    Char.isWhitespace).reverse)

/-- Extension component of Python's `os.path.splitext` on a plain filename: the
suffix starting at the last dot, except that a name whose characters before
that dot are all dots (such as `.bashrc`) has no extension. -/
def splitext_ext (s : String) : String :=
  let cs := s.toList
  if cs.contains '.' then
    let afterRev := cs.reverse.takeWhile (fun c => c ≠ '.')
    let before := cs.take (cs.length - afterRev.length - 1)
    if before.any (fun c => c ≠ '.') then String.mk ('.' :: afterRev.reverse)
    else ""
  else ""

/-- SUPPORTED_EXTENSIONS of `file_parser.py` (lines 17-19): the base set, plus
the Excel extensions only when the optional pandas dependency is importable. -/
def SUPPORTED_EXTENSIONS (pandasAvailable : Bool) : List String :=
  [".pdf", ".docx", ".txt"] ++ (if pandasAvailable then [".xlsx", ".xls"] else [])

/-- One immediate entry of the knowledge-base directory, as `os.listdir` and
`os.path.isfile` see it. `text` is what `load_and_extract_text` returns for the
entry: its extracted text, or the empty string when extraction fails or yields
nothing. -/
structure DirEntry where
  name : String
  isFile : Bool
  text : String
  deriving DecidableEq, Repr

/-- Code-point lexicographic order on character lists: Python's `<=` on `str`,
the order used by `sorted`. -/
def lexLe : List Char → List Char → Bool
  | [], _ => true
  | _ :: _, [] => false
  | a :: as, b :: bs =>
    if a.toNat < b.toNat then true
    else if b.toNat < a.toNat then false
    else lexLe as bs

/-- Stable insertion of a directory entry into a name-sorted list. -/
def insertEntry (x : DirEntry) : List DirEntry → List DirEntry
  | [] => [x]
  | y :: ys => if lexLe y.name.toList x.name.toList then y :: insertEntry x ys
               else x :: y :: ys

/-- Python's `sorted(os.listdir(...))` (`file_parser.py` line 119): a stable
sort of the directory entries by filename. -/
def sortEntries : List DirEntry → List DirEntry
  | [] => []
  | x :: xs => insertEntry x (sortEntries xs)

/-- Filename-marked chunk contributed by one supported file with nonempty
extracted text (`file_parser.py` line 131). -/
def kb_chunk (filename text : String) : String :=
  "--- Content from: " ++ filename ++ " ---\n" ++ text ++ "\n\n"

/-- `load_knowledge_from_directory` of `file_parser.py` (lines 99-141), with
the directory given as the list of its immediate entries: sort names, keep
regular files with a supported extension (extension taken from the lowercased
name), extract each, keep nonempty texts wrapped in a filename marker, and
concatenate. An empty chunk list yields the empty string, as in the source. -/
def load_knowledge_from_directory (pandasAvailable : Bool)
    (entries : List DirEntry) : String :=
  let chunks := (sortEntries entries).filterMap (fun e =>
    if e.isFile then
      if (SUPPORTED_EXTENSIONS pandasAvailable).contains
          (splitext_ext (pyLower e.name)) then
        if e.text ≠ "" then some (kb_chunk e.name e.text) else none
      else none
    else none)
  String.join chunks

/-- Role of a message in the DeepSeek adapter's history (Strategy A). -/
inductive Role
  | system
  | user
  | assistant
  deriving DecidableEq, Repr

/-- One role/content pair of the DeepSeek message history. -/
structure Message where
  role : Role
  content : String
  deriving DecidableEq, Repr

/-- `message.content` of an OpenAI-style chat choice (may be None). -/
structure DSChoiceMessage where
  content : Option String
  deriving DecidableEq, Repr

/-- One `choices[i]` of an OpenAI-style chat completion (message may be
absent). -/
structure DSChoice where
  message : Option DSChoiceMessage
  deriving DecidableEq, Repr

/-- An OpenAI-style chat completion as the DeepSeek adapter inspects it. -/
structure ChatCompletion where
  choices : List DSChoice
  deriving DecidableEq, Repr

/-- Outcome of the outbound `client.chat.completions.create` call: either a
raised exception (its detail as a string) or a returned completion value. -/
inductive DSOutcome
  | raise (e : String)
  | ok (cc : ChatCompletion)
  deriving DecidableEq, Repr

/-- The DeepSeek shelve database: user id to stored message history, `none`
when the key was never written. -/
def DSStore : Type := String → Option (List Message)

/-- `check_if_deepseek_thread_exists` (`deepseek_service.py` lines 37-40):
`S_DB.get(wa_id, [])`, so a missing key reads as the empty history. -/
def check_if_deepseek_thread_exists (S : DSStore) (waId : String) : List Message :=
  (S waId).getD []

/-- `store_deepseek_thread` (`deepseek_service.py` lines 42-45): full overwrite
of the stored history for the key. -/
def store_deepseek_thread (S : DSStore) (waId : String)
    (history : List Message) : DSStore :=
  fun k => if k = waId then some history else S k

/-- System message prepended to a fresh conversation when a knowledge base
exists (`deepseek_service.py` line 68). -/
def ds_system_message (kb : String) : Message :=
  Message.mk Role.system
    ("You are an AI assistant. Use the following knowledge base to answer questions. Prioritize this information.\n---BEGIN KNOWLEDGE BASE---\n"
      ++ kb ++ "\n---END KNOWLEDGE BASE---")

/-- Knowledge-base injection (`deepseek_service.py` line 67): a system message
is appended only when the fetched history is empty and the knowledge base is a
nonempty string. -/
def ds_inject (kb : String) (h : List Message) : List Message :=
  if h = [] ∧ kb ≠ "" then h ++ [ds_system_message kb] else h

/-- Message list handed to the DeepSeek chat-completion call: fetched history,
optional system injection, then the new user turn (lines 60-70). -/
def ds_outbound (kb : String) (S : DSStore) (waId prompt : String) : List Message :=
  ds_inject kb (check_if_deepseek_thread_exists S waId)
    ++ [Message.mk Role.user prompt]

/-- Truthiness check and extraction of `deepseek_service.py` line 77:
`chat_completion.choices and chat_completion.choices[0].message and
chat_completion.choices[0].message.content`. An empty choice list, a missing
message, a None content and an empty content string are all falsy. -/
def ds_usable (cc : ChatCompletion) : Option String :=
  match cc.choices with
  | [] => none
  | ch :: _ =>
    match ch.message with
    | none => none
    | some m =>
      match m.content with
      | none => none
      | some c => if c = "" then none else some c

/-- `generate_ai_response` of `deepseek_service.py` (lines 48-94). `clientReady`
is whether the OpenAI-compatible client was built at startup; the outbound API
call is the `backend` parameter applied to the assembled message list. The
result pairs the returned string with the store after the call. -/
def deepseek_generate (clientReady : Bool) (kb : String) (S : DSStore)
    (waId prompt : String) (backend : List Message → DSOutcome) : String × DSStore :=
  if clientReady = false then ("Error: DeepSeek client not initialized.", S)
  else
    let sent := ds_outbound kb S waId prompt
    match backend sent with
    | DSOutcome.raise e => ("Error communicating with DeepSeek: " ++ e, S)
    | DSOutcome.ok cc =>
      match ds_usable cc with
      | some c =>
        (c, store_deepseek_thread S waId (sent ++ [Message.mk Role.assistant c]))
      | none =>
        match sent.dropLast with
        | [m] =>
          if m.role = Role.system then
            ("Sorry, I couldn't process that response from DeepSeek.",
              store_deepseek_thread S waId [])
          else
            ("Sorry, I couldn't process that response from DeepSeek.",
              store_deepseek_thread S waId [m])
        | other =>
          ("Sorry, I couldn't process that response from DeepSeek.",
            store_deepseek_thread S waId other)

/-- Number of system-role messages in a history. -/
def countSystem : List Message → Nat
  | [] => 0
  | m :: t => (if m.role = Role.system then 1 else 0) + countSystem t

/-- DeepSeek backend that answers every call successfully with the reply
string `r`. -/
def ds_reply_backend (r : String) : List Message → DSOutcome :=
  fun _ => DSOutcome.ok
    (ChatCompletion.mk [DSChoice.mk (some (DSChoiceMessage.mk (some r)))])

/-- Iterated generate calls for one user against a per-call successful
backend: each list element is that call's prompt and reply. -/
def ds_run (kb waId : String) (S : DSStore) : List (String × String) → DSStore
  | [] => S
  | (p, r) :: rest =>
    ds_run kb waId (deepseek_generate true kb S waId p (ds_reply_backend r)).2 rest

/-- Role of a Content object in the Gemini chat history; the Gemini history
has no system role at all (Strategy B binds instructions to the model). -/
inductive GRole
  | user
  | model
  deriving DecidableEq, Repr

/-- One Content object of the Gemini chat history: a role and its parts, each
part reduced to its text. -/
structure GContent where
  role : GRole
  parts : List String
  deriving DecidableEq, Repr

/-- The Gemini shelve database: user id to stored history, `none` when the key
was never written. -/
def GStore : Type := String → Option (List GContent)

/-- `check_if_gemini_thread_exists` (`gemini_service.py` lines 79-82):
`S_DB.get(wa_id, None)`, so a missing key reads as the explicit absence
marker `none`, distinct from an explicitly stored empty list. -/
def check_if_gemini_thread_exists (S : GStore) (waId : String) :
    Option (List GContent) :=
  S waId

/-- `store_gemini_thread` (`gemini_service.py` lines 84-87): full overwrite of
the stored history for the key. -/
def store_gemini_thread (S : GStore) (waId : String)
    (history : List GContent) : GStore :=
  fun k => if k = waId then some history else S k

/-- Python `existing_history or []` (`gemini_service.py` line 109): None and
the empty list are both falsy, so either maps to the empty history. -/
def or_empty (o : Option (List GContent)) : List GContent :=
  match o with
  | none => []
  | some h => h

/-- History the chat session starts from: the stored value with the falsy
cases collapsed to the empty list. -/
def gemini_start_history (S : GStore) (waId : String) : List GContent :=
  or_empty (check_if_gemini_thread_exists S waId)

/-- Outcome of `chat.send_message` followed by the `chat.history` read, per
the google-generativeai client contract: `raise` covers every exception
(network failure, blocked prompt, a response with no candidates, a broken
finish reason — all of which raise inside the adapter's try block), while
`ok parts` means the exchange completed with a first candidate whose
`content.parts` list is `parts` (possibly empty), the session history having
been extended with the user turn and that candidate's content. -/
inductive GemOutcome
  | raise (e : String)
  | ok (parts : List String)
  deriving DecidableEq, Repr

/-- `generate_ai_response` of `gemini_service.py` (lines 90-129). `apiKeySet`
and `modelReady` are the startup conditions on GEMINI_API_KEY and the global
model; the external exchange is the `backend` parameter applied to the
session's prior history and the prompt. Note the source stores `chat.history`
before inspecting the response's candidates. -/
def gemini_generate (apiKeySet modelReady : Bool) (S : GStore)
    (waId prompt : String)
    (backend : List GContent → String → GemOutcome) : String × GStore :=
  if apiKeySet = false then ("Error: Gemini API key not configured.", S)
  else if modelReady = false then ("Error: Gemini model not initialized.", S)
  else
    let h0 := gemini_start_history S waId
    match backend h0 prompt with
    | GemOutcome.raise e => ("Error communicating with Gemini: " ++ e, S)
    | GemOutcome.ok parts =>
      let S2 := store_gemini_thread S waId
        (h0 ++ [GContent.mk GRole.user [prompt], GContent.mk GRole.model parts])
      match parts with
      | p :: _ => (p, S2)
      | [] => ("Sorry, I couldn't process that response from Gemini.", S2)

/-- Knowledge-base preamble appended to the Gemini system instructions
(`gemini_service.py` line 46). -/
def knowledge_preamble (kb : String) : String :=
  "\n\nUse the following information from the knowledge base to answer user questions. Prioritize this information above all other knowledge:\n---\n"
    ++ kb ++ "\n---"

/-- Assembly of the Gemini system instructions from the active static
instructions and the knowledge base (`gemini_service.py` lines 44-51); both
arguments use `""` for Python None or empty (falsy). -/
def final_system_instructions (active kb : String) : String :=
  if kb ≠ "" then
    if active ≠ "" then active ++ knowledge_preamble kb
    else pyStrip (knowledge_preamble kb)
  else active

/-- Gemini model handle as built once at startup (`gemini_service.py` lines
63-69): the system instruction is bound at construction and is None exactly
when the assembled instruction string is empty. -/
structure GModel where
  systemInstruction : Option String
  deriving DecidableEq, Repr

/-- Model construction (`gemini_service.py` lines 66-69):
`system_instruction=final_system_instructions if final_system_instructions
else None`. -/
def mkGeminiModel (finalInstructions : String) : GModel :=
  GModel.mk (if finalInstructions = "" then none else some finalInstructions)

/-- Unavailability reply of the openai / deepseek router branch
(`whatsapp_utils.py` line 65). -/
def unavailability_message (p : String) : String :=
  "AI Provider '" ++ p ++ "' is not available in this demo configuration."

/-- `generate_response` of `whatsapp_utils.py` (lines 51-72). `aiProviderEnv`
is the AI_PROVIDER environment value (`none` when unset, defaulted to
"gemini" then lowercased); `gemini` is the Gemini adapter entry point, the
only adapter the router can invoke in this configuration. -/
def generate_response (aiProviderEnv : Option String)
    (gemini : String → String → String → String)
    (messageBody waId name : String) : String :=
  let p := pyLower (aiProviderEnv.getD "gemini")
  if p = "gemini" then gemini messageBody waId name
  else if p = "openai" ∨ p = "deepseek" then unavailability_message p
  else gemini messageBody waId name

/-- Invariant of a persisted DeepSeek history once a conversation is active:
exactly one system-role message, sitting at the head. -/
abbrev goodHistory (h : List Message) : Prop :=
  countSystem h = 1 ∧ ∃ m t, h = m :: t ∧ m.role = Role.system

/-- Directory listing of the P5 scenario: `b.txt` and `a.txt` with extracted
text, `c.pdf` a stub whose extraction yields nothing, `d.zip` unsupported. -/
def kb_dir_listing : List DirEntry :=
  [DirEntry.mk "b.txt" true "Bravo", DirEntry.mk "a.txt" true "Alpha",
   DirEntry.mk "c.pdf" true "", DirEntry.mk "d.zip" true "Zed"]

/-- Outcome of one store operation: the shelve layer may itself raise (a
StorageError), with the exception detail as a string. -/
inductive OpResult (α : Type)
  | ok (a : α)
  | raise (e : String)

/-- Message list handed to the DeepSeek chat-completion call, as a function
of the history the store read returned: optional system injection, then the
new user turn. `ds_outbound` is this applied to a successful read. -/
def ds_outbound_of (kb : String) (h0 : List Message) (prompt : String) :
    List Message :=
  ds_inject kb h0 ++ [Message.mk Role.user prompt]

/-- `generate_ai_response` of `deepseek_service.py` with fallible store
operations. `readS` is the `check_if_deepseek_thread_exists` call and
`writeS` the `store_deepseek_thread` call, each of which may raise; both sit
inside the try block of lines 59-94, so any raise from them reaches the same
except handler as an API failure and produces the same error string. Only the
returned string is modelled here; the pure-store embedding
`deepseek_generate` is the special case of non-raising store operations. -/
def deepseek_generate_exc (clientReady : Bool) (kb : String)
    (readS : String → OpResult (List Message))
    (writeS : String → List Message → OpResult Unit)
    (waId prompt : String) (backend : List Message → DSOutcome) : String :=
  if clientReady = false then "Error: DeepSeek client not initialized."
  else
    match readS waId with
    | OpResult.raise e => "Error communicating with DeepSeek: " ++ e
    | OpResult.ok h0 =>
      let sent := ds_outbound_of kb h0 prompt
      match backend sent with
      | DSOutcome.raise e => "Error communicating with DeepSeek: " ++ e
      | DSOutcome.ok cc =>
        match ds_usable cc with
        | some c =>
          match writeS waId (sent ++ [Message.mk Role.assistant c]) with
          | OpResult.raise e => "Error communicating with DeepSeek: " ++ e
          | OpResult.ok _ => c
        | none =>
          match sent.dropLast with
          | [m] =>
            if m.role = Role.system then
              match writeS waId [] with
              | OpResult.raise e => "Error communicating with DeepSeek: " ++ e
              | OpResult.ok _ =>
                "Sorry, I couldn't process that response from DeepSeek."
            else
              match writeS waId [m] with
              | OpResult.raise e => "Error communicating with DeepSeek: " ++ e
              | OpResult.ok _ =>
                "Sorry, I couldn't process that response from DeepSeek."
          | other =>
            match writeS waId other with
            | OpResult.raise e => "Error communicating with DeepSeek: " ++ e
            | OpResult.ok _ =>
              "Sorry, I couldn't process that response from DeepSeek."

/-- `generate_ai_response` of `gemini_service.py` with fallible store
operations. `readS` is the `check_if_gemini_thread_exists` call and `writeS`
the `store_gemini_thread` call, each of which may raise; both sit inside the
try block of lines 103-129, so any raise from them reaches the same except
handler as an API failure. The write happens before the candidates check, as
in the source; the pure-store embedding `gemini_generate` is the special case
of non-raising store operations. -/
def gemini_generate_exc (apiKeySet modelReady : Bool)
    (readS : String → OpResult (Option (List GContent)))
    (writeS : String → List GContent → OpResult Unit)
    (waId prompt : String)
    (backend : List GContent → String → GemOutcome) : String :=
  if apiKeySet = false then "Error: Gemini API key not configured."
  else if modelReady = false then "Error: Gemini model not initialized."
  else
    match readS waId with
    | OpResult.raise e => "Error communicating with Gemini: " ++ e
    | OpResult.ok existing =>
      let h0 := or_empty existing
      match backend h0 prompt with
      | GemOutcome.raise e => "Error communicating with Gemini: " ++ e
      | GemOutcome.ok parts =>
        match writeS waId
            (h0 ++ [GContent.mk GRole.user [prompt],
              GContent.mk GRole.model parts]) with
        | OpResult.raise e => "Error communicating with Gemini: " ++ e
        | OpResult.ok _ =>
          match parts with
          | p :: _ => p
          | [] => "Sorry, I couldn't process that response from Gemini."

set_option maxRecDepth 8192

theorem countSystem_append (a b : List Message) :
    countSystem (a ++ b) = countSystem a + countSystem b := by
  induction a with
  | nil => simp [countSystem]
  | cons m t ih => simp [countSystem, ih, Nat.add_assoc]

theorem goodHistory_extend (h : List Message) (p r : String)
    (hg : goodHistory h) :
    goodHistory (h ++ [Message.mk Role.user p, Message.mk Role.assistant r]) := by
  obtain ⟨hc, m, t, hht, hrole⟩ := hg
  constructor
  · rw [countSystem_append, hc]
    simp [countSystem]
  · exact ⟨m, t ++ [Message.mk Role.user p, Message.mk Role.assistant r],
      by rw [hht]; simp, hrole⟩

theorem deepseek_generate_success (kb : String) (S : DSStore) (waId p r : String)
    (hr : r ≠ "") :
    deepseek_generate true kb S waId p (ds_reply_backend r) =
      (r, store_deepseek_thread S waId
        (ds_outbound kb S waId p ++ [Message.mk Role.assistant r])) := by
  simp [deepseek_generate, ds_reply_backend, ds_usable, hr]

theorem ds_run_preserves (kb waId : String) (calls : List (String × String)) :
    ∀ S : DSStore, (∀ pr ∈ calls, pr.2 ≠ "") →
    (∃ h, S waId = some h ∧ goodHistory h) →
    ∃ h, (ds_run kb waId S calls) waId = some h ∧ goodHistory h := by
  induction calls with
  | nil => intro S _ hS; simpa [ds_run] using hS
  | cons c rest ih =>
    intro S hne hS
    obtain ⟨h, hget, hgood⟩ := hS
    obtain ⟨p, r⟩ := c
    have hr : r ≠ "" := hne (p, r) (List.mem_cons_self _ _)
    have hstep := deepseek_generate_success kb S waId p r hr
    have hout : ds_outbound kb S waId p = h ++ [Message.mk Role.user p] := by
      obtain ⟨_, m, t, hht, _⟩ := hgood
      simp [ds_outbound, check_if_deepseek_thread_exists, hget, ds_inject, hht]
    simp only [ds_run]
    apply ih
    · intro pr hpr; exact hne pr (List.mem_cons_of_mem _ hpr)
    · refine ⟨h ++ [Message.mk Role.user p, Message.mk Role.assistant r], ?_,
        goodHistory_extend h p r hgood⟩
      rw [hstep]
      simp [store_deepseek_thread, hout]

/-- C1 (counterexample): on a fresh user, a Gemini backend response whose first
candidate has no text makes the adapter return the fixed apology, yet the
persisted history is not the empty sequence — it contains the orphaned user
turn (and an empty model turn), because the source stores `chat.history`
before inspecting the candidates. -/
theorem claim_C1_counterexample :
    (gemini_generate true true (fun _ => none) "u1" "hi"
        (fun _ _ => GemOutcome.ok [])).1 =
      "Sorry, I couldn't process that response from Gemini." ∧
    (gemini_generate true true (fun _ => none) "u1" "hi"
        (fun _ _ => GemOutcome.ok [])).2 "u1" =
      some [GContent.mk GRole.user ["hi"], GContent.mk GRole.model []] ∧
    ¬ (gemini_generate true true (fun _ => none) "u1" "hi"
        (fun _ _ => GemOutcome.ok [])).2 "u1" = some [] := by
  decide

/-- C1 (amended): for the DeepSeek adapter the claim holds — on a fresh user
id, any completion with no usable content (no choices, missing message, None
or empty content) leaves the persisted history equal to the empty sequence
and the call returns the fixed apology string. -/
theorem claim_C1_rollback_empty_on_fresh (kb : String) (S : DSStore)
    (waId prompt : String) (cc : ChatCompletion)
    (hfresh : check_if_deepseek_thread_exists S waId = [])
    (hbad : ds_usable cc = none) :
    (deepseek_generate true kb S waId prompt (fun _ => DSOutcome.ok cc)).1 =
      "Sorry, I couldn't process that response from DeepSeek." ∧
    (deepseek_generate true kb S waId prompt (fun _ => DSOutcome.ok cc)).2 waId =
      some [] := by
  by_cases hkb : kb = ""
  · have hout : ds_outbound kb S waId prompt = [Message.mk Role.user prompt] := by
      simp [ds_outbound, hfresh, ds_inject, hkb]
    simp [deepseek_generate, hout, hbad, store_deepseek_thread]
  · have hout : ds_outbound kb S waId prompt =
        [ds_system_message kb, Message.mk Role.user prompt] := by
      simp [ds_outbound, hfresh, ds_inject, hkb]
    simp [deepseek_generate, hout, hbad, store_deepseek_thread, ds_system_message]

/-- C1 (witness): the amended rollback theorem applied to a concrete fresh
store and a completion with no choices. -/
theorem claim_C1_rollback_empty_on_fresh_witness :
    (deepseek_generate true "K" (fun _ => none) "u" "hi"
        (fun _ => DSOutcome.ok (ChatCompletion.mk []))).1 =
      "Sorry, I couldn't process that response from DeepSeek." ∧
    (deepseek_generate true "K" (fun _ => none) "u" "hi"
        (fun _ => DSOutcome.ok (ChatCompletion.mk []))).2 "u" = some [] :=
  claim_C1_rollback_empty_on_fresh "K" (fun _ => none) "u" "hi"
    (ChatCompletion.mk []) (by rfl) (by rfl)

/-- C2: when the outbound AI call raises, neither adapter persists any change:
the whole store is returned untouched, the stored history for the user id is
still exactly H, and the returned string embeds the exception detail. -/
theorem claim_C2_exception_preserves_history (kb : String) (S : DSStore)
    (G : GStore) (waId prompt e : String) (H : List Message) (HG : List GContent)
    (hS : S waId = some H) (hG : G waId = some HG) :
    (deepseek_generate true kb S waId prompt (fun _ => DSOutcome.raise e)).2 = S ∧
    (deepseek_generate true kb S waId prompt (fun _ => DSOutcome.raise e)).2 waId
      = some H ∧
    (deepseek_generate true kb S waId prompt (fun _ => DSOutcome.raise e)).1 =
      "Error communicating with DeepSeek: " ++ e ∧
    (gemini_generate true true G waId prompt (fun _ _ => GemOutcome.raise e)).2
      = G ∧
    (gemini_generate true true G waId prompt (fun _ _ => GemOutcome.raise e)).2
      waId = some HG ∧
    (gemini_generate true true G waId prompt (fun _ _ => GemOutcome.raise e)).1 =
      "Error communicating with Gemini: " ++ e :=
  ⟨rfl, hS, rfl, rfl, hG, rfl⟩

/-- C2 (witness): the exception-preservation theorem applied to concrete
stores holding one prior exchange. -/
theorem claim_C2_exception_preserves_history_witness :
    (deepseek_generate true "K" (fun _ => some [Message.mk Role.user "q"]) "u"
        "p" (fun _ => DSOutcome.raise "boom")).2 = (fun _ => some [Message.mk Role.user "q"]) ∧
    (deepseek_generate true "K" (fun _ => some [Message.mk Role.user "q"]) "u"
        "p" (fun _ => DSOutcome.raise "boom")).2 "u" = some [Message.mk Role.user "q"] ∧
    (deepseek_generate true "K" (fun _ => some [Message.mk Role.user "q"]) "u"
        "p" (fun _ => DSOutcome.raise "boom")).1 =
      "Error communicating with DeepSeek: " ++ "boom" ∧
    (gemini_generate true true (fun _ => some [GContent.mk GRole.user ["q"]]) "u"
        "p" (fun _ _ => GemOutcome.raise "boom")).2 =
      (fun _ => some [GContent.mk GRole.user ["q"]]) ∧
    (gemini_generate true true (fun _ => some [GContent.mk GRole.user ["q"]]) "u"
        "p" (fun _ _ => GemOutcome.raise "boom")).2 "u" =
      some [GContent.mk GRole.user ["q"]] ∧
    (gemini_generate true true (fun _ => some [GContent.mk GRole.user ["q"]]) "u"
        "p" (fun _ _ => GemOutcome.raise "boom")).1 =
      "Error communicating with Gemini: " ++ "boom" :=
  claim_C2_exception_preserves_history "K"
    (fun _ => some [Message.mk Role.user "q"])
    (fun _ => some [GContent.mk GRole.user ["q"]]) "u" "p" "boom"
    [Message.mk Role.user "q"] [GContent.mk GRole.user ["q"]] rfl rfl

/-- C3: over any sequence of at least two successful generate calls for the
same fresh user id with a nonempty knowledge base, the DeepSeek adapter's
persisted history contains the system context exactly once (one system-role
message) and that message is the first element; it is installed only by the
call that found the history empty, and no later call re-injects it. The
Gemini adapter (Strategy B) binds its instructions to the model at startup
and its history roles exclude system altogether. -/
theorem claim_C3_system_context_injected_once (kb : String) (hkb : kb ≠ "")
    (waId : String) (S : DSStore)
    (hfresh : check_if_deepseek_thread_exists S waId = [])
    (calls : List (String × String)) (hlen : 2 ≤ calls.length)
    (hne : ∀ pr ∈ calls, pr.2 ≠ "") :
    ∃ h, (ds_run kb waId S calls) waId = some h ∧ countSystem h = 1 ∧
      ∃ m t, h = m :: t ∧ m.role = Role.system := by
  obtain ⟨c, rest, rfl⟩ : ∃ c rest, calls = c :: rest := by
    cases calls with
    | nil => simp at hlen
    | cons c rest => exact ⟨c, rest, rfl⟩
  obtain ⟨p, r⟩ := c
  have hr : r ≠ "" := hne (p, r) (List.mem_cons_self _ _)
  have hstep := deepseek_generate_success kb S waId p r hr
  have hout : ds_outbound kb S waId p =
      [ds_system_message kb, Message.mk Role.user p] := by
    simp [ds_outbound, hfresh, ds_inject, hkb]
  have hrun := ds_run_preserves kb waId rest
    ((deepseek_generate true kb S waId p (ds_reply_backend r)).2)
    (fun pr hpr => hne pr (List.mem_cons_of_mem _ hpr))
    ⟨[ds_system_message kb, Message.mk Role.user p, Message.mk Role.assistant r],
      by rw [hstep]; simp [store_deepseek_thread, hout],
      by exact ⟨by simp [countSystem, ds_system_message], _, _, rfl, rfl⟩⟩
  obtain ⟨h, hgeth, hc, m, t, hht, hrole⟩ := hrun
  refine ⟨h, ?_, hc, m, t, hht, hrole⟩
  simpa only [ds_run] using hgeth

/-- C3 (witness): two successful calls from a fresh user against a nonempty
knowledge base. -/
theorem claim_C3_system_context_injected_once_witness :
    ∃ h, (ds_run "K" "u" (fun _ => none) [("a", "x"), ("b", "y")]) "u" =
        some h ∧ countSystem h = 1 ∧
      ∃ m t, h = m :: t ∧ m.role = Role.system :=
  claim_C3_system_context_injected_once "K" (by decide) "u" (fun _ => none)
    (by rfl) [("a", "x"), ("b", "y")] (by decide) (by decide)

/-- C5: with the provider client or model not built at startup, each adapter
returns its fixed configuration-error string at once and the store it was
given is returned untouched, independent of the store's contents and of the
backend (so no storage read or write and no network call can influence the
result). -/
theorem claim_C5_config_error_fast_fail (kb : String) (S : DSStore) (G : GStore)
    (waId prompt : String) (dsBackend : List Message → DSOutcome)
    (gBackend : List GContent → String → GemOutcome) (mReady : Bool) :
    deepseek_generate false kb S waId prompt dsBackend =
      ("Error: DeepSeek client not initialized.", S) ∧
    gemini_generate false mReady G waId prompt gBackend =
      ("Error: Gemini API key not configured.", G) ∧
    gemini_generate true false G waId prompt gBackend =
      ("Error: Gemini model not initialized.", G) :=
  ⟨rfl, rfl, rfl⟩

/-- C4: on the P5 directory listing (given unsorted as b.txt, a.txt, c.pdf,
d.zip), the loader returns exactly the a.txt chunk followed by the b.txt chunk
(lexicographic filename order), the a.txt and b.txt markers occur in the
output, the b.txt marker does not occur inside the a.txt chunk (so the a.txt
marker comes first), the supported-but-empty c.pdf stub contributes no marker,
and the unsupported d.zip contributes no marker despite nonempty text. -/
theorem claim_C4_directory_order_and_skips :
    load_knowledge_from_directory false kb_dir_listing =
      kb_chunk "a.txt" "Alpha" ++ kb_chunk "b.txt" "Bravo" ∧
    ("--- Content from: a.txt ---".toList <:+:
      (load_knowledge_from_directory false kb_dir_listing).toList) ∧
    ("--- Content from: b.txt ---".toList <:+:
      (load_knowledge_from_directory false kb_dir_listing).toList) ∧
    ¬ ("--- Content from: b.txt ---".toList <:+:
      (kb_chunk "a.txt" "Alpha").toList) ∧
    ¬ ("--- Content from: c.pdf ---".toList <:+:
      (load_knowledge_from_directory false kb_dir_listing).toList) ∧
    ¬ ("--- Content from: d.zip ---".toList <:+:
      (load_knowledge_from_directory false kb_dir_listing).toList) := by
  decide

/-- C6: the two providers use different no-history sentinels — for a user id
with no stored entry, the DeepSeek read yields the empty sequence while the
Gemini read yields the absence marker `none`, which differs from what the
Gemini read yields on an explicitly stored empty sequence. -/
theorem claim_C6_distinct_no_history_sentinels (ds : DSStore) (g g2 : GStore)
    (waId : String) (hds : ds waId = none) (hg : g waId = none)
    (hg2 : g2 waId = some []) :
    check_if_deepseek_thread_exists ds waId = [] ∧
    check_if_gemini_thread_exists g waId = none ∧
    check_if_gemini_thread_exists g2 waId = some [] ∧
    check_if_gemini_thread_exists g waId ≠ check_if_gemini_thread_exists g2 waId := by
  refine ⟨?_, hg, hg2, ?_⟩
  · simp [check_if_deepseek_thread_exists, hds]
  · simp [check_if_gemini_thread_exists, hg, hg2]

/-- C6 (witness): the sentinel theorem applied to an empty DeepSeek store, an
empty Gemini store, and a Gemini store holding an explicitly cleared entry. -/
theorem claim_C6_distinct_no_history_sentinels_witness :
    check_if_deepseek_thread_exists (fun _ => none) "u" = [] ∧
    check_if_gemini_thread_exists (fun _ => none) "u" = none ∧
    check_if_gemini_thread_exists (fun _ => some []) "u" = some [] ∧
    check_if_gemini_thread_exists (fun _ => none) "u" ≠
      check_if_gemini_thread_exists (fun _ => some []) "u" :=
  claim_C6_distinct_no_history_sentinels (fun _ => none) (fun _ => none)
    (fun _ => some []) "u" rfl rfl rfl

/-- C7: with an empty knowledge base and no static system instructions, no
system context is created anywhere — the DeepSeek injection is the identity on
every fetched history (so its outbound list is exactly the history plus the
user turn, for every store, user id and prompt), the assembled Gemini
instruction string is empty, and the Gemini model is built with no system
instruction bound. -/
theorem claim_C7_no_system_context_when_absent :
    (∀ h : List Message, ds_inject "" h = h) ∧
    (∀ (S : DSStore) (waId prompt : String),
      ds_outbound "" S waId prompt =
        check_if_deepseek_thread_exists S waId ++ [Message.mk Role.user prompt]) ∧
    final_system_instructions "" "" = "" ∧
    (mkGeminiModel (final_system_instructions "" "")).systemInstruction = none := by
  refine ⟨?_, ?_, rfl, rfl⟩
  · intro h
    simp [ds_inject]
  · intro S waId prompt
    simp [ds_outbound, ds_inject]

theorem ds_outbound_of_check (kb : String) (S : DSStore) (waId prompt : String) :
    ds_outbound_of kb (check_if_deepseek_thread_exists S waId) prompt =
      ds_outbound kb S waId prompt := rfl

theorem deepseek_generate_exc_pure (clientReady : Bool) (kb : String)
    (S : DSStore) (waId prompt : String) (backend : List Message → DSOutcome) :
    deepseek_generate_exc clientReady kb
      (fun k => OpResult.ok (check_if_deepseek_thread_exists S k))
      (fun _ _ => OpResult.ok ()) waId prompt backend =
      (deepseek_generate clientReady kb S waId prompt backend).1 := by
  cases clientReady with
  | false => rfl
  | true =>
    rcases hb : backend (ds_outbound kb S waId prompt) with e | cc
    · simp [deepseek_generate_exc, deepseek_generate, ds_outbound_of_check, hb]
    · rcases hu : ds_usable cc with _ | c
      · rcases hdl : (ds_outbound kb S waId prompt).dropLast
            with _ | ⟨m, _ | ⟨m2, tl⟩⟩ <;>
          simp [deepseek_generate_exc, deepseek_generate, ds_outbound_of_check,
            hb, hu, hdl, apply_ite]
      · simp [deepseek_generate_exc, deepseek_generate, ds_outbound_of_check,
          hb, hu]

theorem gemini_generate_exc_pure (ak mr : Bool) (S : GStore)
    (waId prompt : String) (backend : List GContent → String → GemOutcome) :
    gemini_generate_exc ak mr
      (fun k => OpResult.ok (check_if_gemini_thread_exists S k))
      (fun _ _ => OpResult.ok ()) waId prompt backend =
      (gemini_generate ak mr S waId prompt backend).1 := by
  cases ak with
  | false => rfl
  | true =>
    cases mr with
    | false => rfl
    | true =>
      rcases hb : backend (or_empty (check_if_gemini_thread_exists S waId))
          prompt with e | parts
      · simp [gemini_generate_exc, gemini_generate, gemini_start_history, hb]
      · cases parts <;>
          simp [gemini_generate_exc, gemini_generate, gemini_start_history, hb]

/-- C8: whatever the startup flags and however the backend call and the store
read and write operations behave (success, malformed response, or raised
exception — the source keeps every shelve access inside the try block, so a
store raise reaches the same except handler as an API failure), each
adapter's generate returns one of its enumerated strings: a configuration
error, an error string embedding the detail of an exception actually raised
by the read, the backend or a write, the fixed apology, or the reply text
extracted from the backend's response. No failure escapes the adapter
boundary. -/
theorem claim_C8_adapters_never_raise :
    (∀ (ready : Bool) (kb : String) (readS : String → OpResult (List Message))
        (writeS : String → List Message → OpResult Unit) (waId prompt : String)
        (backend : List Message → DSOutcome),
      deepseek_generate_exc ready kb readS writeS waId prompt backend =
          "Error: DeepSeek client not initialized." ∨
      (∃ e, deepseek_generate_exc ready kb readS writeS waId prompt backend =
          "Error communicating with DeepSeek: " ++ e ∧
        (readS waId = OpResult.raise e ∨
         (∃ h0, readS waId = OpResult.ok h0 ∧
           backend (ds_outbound_of kb h0 prompt) = DSOutcome.raise e) ∨
         (∃ hist, writeS waId hist = OpResult.raise e))) ∨
      deepseek_generate_exc ready kb readS writeS waId prompt backend =
          "Sorry, I couldn't process that response from DeepSeek." ∨
      (∃ h0 cc, readS waId = OpResult.ok h0 ∧
        backend (ds_outbound_of kb h0 prompt) = DSOutcome.ok cc ∧
        ds_usable cc =
          some (deepseek_generate_exc ready kb readS writeS waId prompt backend))) ∧
    (∀ (ak mr : Bool) (readS : String → OpResult (Option (List GContent)))
        (writeS : String → List GContent → OpResult Unit) (waId prompt : String)
        (backend : List GContent → String → GemOutcome),
      gemini_generate_exc ak mr readS writeS waId prompt backend =
          "Error: Gemini API key not configured." ∨
      gemini_generate_exc ak mr readS writeS waId prompt backend =
          "Error: Gemini model not initialized." ∨
      (∃ e, gemini_generate_exc ak mr readS writeS waId prompt backend =
          "Error communicating with Gemini: " ++ e ∧
        (readS waId = OpResult.raise e ∨
         (∃ ex, readS waId = OpResult.ok ex ∧
           backend (or_empty ex) prompt = GemOutcome.raise e) ∨
         (∃ hist, writeS waId hist = OpResult.raise e))) ∨
      gemini_generate_exc ak mr readS writeS waId prompt backend =
          "Sorry, I couldn't process that response from Gemini." ∨
      (∃ ex p rest, readS waId = OpResult.ok ex ∧
        backend (or_empty ex) prompt = GemOutcome.ok (p :: rest) ∧
        gemini_generate_exc ak mr readS writeS waId prompt backend = p)) := by
  constructor
  · intro ready kb readS writeS waId prompt backend
    cases ready with
    | false => exact Or.inl rfl
    | true =>
      rcases hr : readS waId with h0 | e
      · rcases hb : backend (ds_outbound_of kb h0 prompt) with e | cc
        · exact Or.inr (Or.inl ⟨e, by simp [deepseek_generate_exc, hr, hb],
            Or.inr (Or.inl ⟨h0, rfl, hb⟩)⟩)
        · rcases hu : ds_usable cc with _ | c
          · rcases hdl : (ds_outbound_of kb h0 prompt).dropLast
                with _ | ⟨m, _ | ⟨m2, tl⟩⟩
            · rcases hw : writeS waId [] with u | e
              · exact Or.inr (Or.inr (Or.inl
                  (by simp [deepseek_generate_exc, hr, hb, hu, hdl, hw])))
              · exact Or.inr (Or.inl ⟨e,
                  by simp [deepseek_generate_exc, hr, hb, hu, hdl, hw],
                  Or.inr (Or.inr ⟨[], hw⟩)⟩)
            · by_cases hm : m.role = Role.system
              · rcases hw : writeS waId [] with u | e
                · exact Or.inr (Or.inr (Or.inl
                    (by simp [deepseek_generate_exc, hr, hb, hu, hdl, hm, hw])))
                · exact Or.inr (Or.inl ⟨e,
                    by simp [deepseek_generate_exc, hr, hb, hu, hdl, hm, hw],
                    Or.inr (Or.inr ⟨[], hw⟩)⟩)
              · rcases hw : writeS waId [m] with u | e
                · exact Or.inr (Or.inr (Or.inl
                    (by simp [deepseek_generate_exc, hr, hb, hu, hdl, hm, hw])))
                · exact Or.inr (Or.inl ⟨e,
                    by simp [deepseek_generate_exc, hr, hb, hu, hdl, hm, hw],
                    Or.inr (Or.inr ⟨[m], hw⟩)⟩)
            · rcases hw : writeS waId (m :: m2 :: tl) with u | e
              · exact Or.inr (Or.inr (Or.inl
                  (by simp [deepseek_generate_exc, hr, hb, hu, hdl, hw])))
              · exact Or.inr (Or.inl ⟨e,
                  by simp [deepseek_generate_exc, hr, hb, hu, hdl, hw],
                  Or.inr (Or.inr ⟨m :: m2 :: tl, hw⟩)⟩)
          · rcases hw : writeS waId
                (ds_outbound_of kb h0 prompt ++ [Message.mk Role.assistant c])
                with u | e
            · exact Or.inr (Or.inr (Or.inr ⟨h0, cc, rfl, hb,
                by simp [deepseek_generate_exc, hr, hb, hu, hw]⟩))
            · exact Or.inr (Or.inl ⟨e,
                by simp [deepseek_generate_exc, hr, hb, hu, hw],
                Or.inr (Or.inr ⟨_, hw⟩)⟩)
      · exact Or.inr (Or.inl ⟨e, by simp [deepseek_generate_exc, hr], Or.inl rfl⟩)
  · intro ak mr readS writeS waId prompt backend
    cases ak with
    | false => exact Or.inl rfl
    | true =>
      cases mr with
      | false => exact Or.inr (Or.inl rfl)
      | true =>
        rcases hr : readS waId with ex | e
        · rcases hb : backend (or_empty ex) prompt with e | parts
          · exact Or.inr (Or.inr (Or.inl ⟨e,
              by simp [gemini_generate_exc, hr, hb],
              Or.inr (Or.inl ⟨ex, rfl, hb⟩)⟩))
          · rcases hw : writeS waId (or_empty ex ++
                [GContent.mk GRole.user [prompt], GContent.mk GRole.model parts])
                with u | e
            · cases parts with
              | nil => exact Or.inr (Or.inr (Or.inr (Or.inl
                  (by simp [gemini_generate_exc, hr, hb, hw]))))
              | cons p rest => exact Or.inr (Or.inr (Or.inr (Or.inr
                  ⟨ex, p, rest, rfl, hb,
                    by simp [gemini_generate_exc, hr, hb, hw]⟩)))
            · exact Or.inr (Or.inr (Or.inl ⟨e,
                by simp [gemini_generate_exc, hr, hb, hw],
                Or.inr (Or.inr ⟨_, hw⟩)⟩))
        · exact Or.inr (Or.inr (Or.inl ⟨e,
            by simp [gemini_generate_exc, hr], Or.inl rfl⟩))

/-- C9: the Gemini adapter cannot distinguish a store with no entry for the
user (read as `none`) from one holding an explicitly cleared empty sequence:
the chat session starts from the same history, the returned string is the
same, the history a subsequent call would observe is the same, and on a
completed exchange the persisted entries for the user are literally equal. -/
theorem claim_C9_absence_marker_unobservable (ak mr : Bool) (S1 S2 : GStore)
    (waId prompt : String) (backend : List GContent → String → GemOutcome)
    (h1 : S1 waId = none) (h2 : S2 waId = some []) :
    gemini_start_history S1 waId = gemini_start_history S2 waId ∧
    (gemini_generate ak mr S1 waId prompt backend).1 =
      (gemini_generate ak mr S2 waId prompt backend).1 ∧
    gemini_start_history ((gemini_generate ak mr S1 waId prompt backend).2) waId =
      gemini_start_history ((gemini_generate ak mr S2 waId prompt backend).2) waId ∧
    (∀ parts, ak = true → mr = true →
      backend [] prompt = GemOutcome.ok parts →
      ((gemini_generate ak mr S1 waId prompt backend).2) waId =
        ((gemini_generate ak mr S2 waId prompt backend).2) waId) := by
  have hs1 : gemini_start_history S1 waId = [] := by
    simp [gemini_start_history, check_if_gemini_thread_exists, h1, or_empty]
  have hs2 : gemini_start_history S2 waId = [] := by
    simp [gemini_start_history, check_if_gemini_thread_exists, h2, or_empty]
  refine ⟨hs1.trans hs2.symm, ?_⟩
  cases ak with
  | false =>
    refine ⟨rfl, ?_, ?_⟩
    · simp [gemini_generate, gemini_start_history,
        check_if_gemini_thread_exists, h1, h2, or_empty]
    · intro parts hak
      exact absurd hak (by simp)
  | true =>
    cases mr with
    | false =>
      refine ⟨rfl, ?_, ?_⟩
      · simp [gemini_generate, gemini_start_history,
          check_if_gemini_thread_exists, h1, h2, or_empty]
      · intro parts _ hmr
        exact absurd hmr (by simp)
    | true =>
      rcases hb : backend [] prompt with e | parts
      · refine ⟨?_, ?_, ?_⟩
        · simp [gemini_generate, hs1, hs2, hb]
        · simp [gemini_generate, hs1, hs2, hb, gemini_start_history,
            check_if_gemini_thread_exists, h1, h2, or_empty]
        · intro parts _ _ hok
          simp [hb] at hok
      · cases parts with
        | nil =>
          refine ⟨?_, ?_, ?_⟩
          · simp [gemini_generate, hs1, hs2, hb]
          · simp [gemini_generate, hs1, hs2, hb, gemini_start_history,
              check_if_gemini_thread_exists, store_gemini_thread, or_empty, h1, h2]
          · intro parts2 _ _ hok
            simp [gemini_generate, hs1, hs2, hb, store_gemini_thread, h1, h2,
              gemini_start_history, check_if_gemini_thread_exists, or_empty]
        | cons p rest =>
          refine ⟨?_, ?_, ?_⟩
          · simp [gemini_generate, hs1, hs2, hb]
          · simp [gemini_generate, hs1, hs2, hb, gemini_start_history,
              check_if_gemini_thread_exists, store_gemini_thread, or_empty, h1, h2]
          · intro parts2 _ _ hok
            simp [gemini_generate, hs1, hs2, hb, store_gemini_thread, h1, h2,
              gemini_start_history, check_if_gemini_thread_exists, or_empty]

/-- C9 (witness): the indistinguishability theorem applied to a never-written
store and an explicitly cleared one, with a backend completing one exchange. -/
theorem claim_C9_absence_marker_unobservable_witness :
    gemini_start_history (fun _ => none) "u" =
      gemini_start_history (fun _ => some []) "u" ∧
    (gemini_generate true true (fun _ => none) "u" "p"
        (fun _ _ => GemOutcome.ok ["r"])).1 =
      (gemini_generate true true (fun _ => some []) "u" "p"
        (fun _ _ => GemOutcome.ok ["r"])).1 ∧
    gemini_start_history ((gemini_generate true true (fun _ => none) "u" "p"
        (fun _ _ => GemOutcome.ok ["r"])).2) "u" =
      gemini_start_history ((gemini_generate true true (fun _ => some []) "u" "p"
        (fun _ _ => GemOutcome.ok ["r"])).2) "u" ∧
    (∀ parts, true = true → true = true →
      (fun (_ : List GContent) (_ : String) => GemOutcome.ok ["r"]) [] "p" =
        GemOutcome.ok parts →
      ((gemini_generate true true (fun _ => none) "u" "p"
          (fun _ _ => GemOutcome.ok ["r"])).2) "u" =
        ((gemini_generate true true (fun _ => some []) "u" "p"
          (fun _ _ => GemOutcome.ok ["r"])).2) "u") :=
  claim_C9_absence_marker_unobservable true true (fun _ => none)
    (fun _ => some []) "u" "p" (fun _ _ => GemOutcome.ok ["r"]) rfl rfl

/-- C10: the router lowercases AI_PROVIDER (defaulting the unset value to
"gemini"); any value outside gemini, openai, deepseek dispatches to the
Gemini adapter as a silent fallback, the unset default dispatches to Gemini,
and the values openai and deepseek return the fixed unavailability string
without invoking any adapter (the result is independent of the adapter
function). -/
theorem claim_C10_router_dispatch (aiProviderEnv : Option String)
    (gemini gemini2 : String → String → String → String)
    (msg waId name : String) :
    generate_response none gemini msg waId name = gemini msg waId name ∧
    (pyLower (aiProviderEnv.getD "gemini") ≠ "gemini" →
     pyLower (aiProviderEnv.getD "gemini") ≠ "openai" →
     pyLower (aiProviderEnv.getD "gemini") ≠ "deepseek" →
      generate_response aiProviderEnv gemini msg waId name =
        gemini msg waId name) ∧
    ((pyLower (aiProviderEnv.getD "gemini") = "openai" ∨
      pyLower (aiProviderEnv.getD "gemini") = "deepseek") →
      generate_response aiProviderEnv gemini msg waId name =
        unavailability_message (pyLower (aiProviderEnv.getD "gemini")) ∧
      generate_response aiProviderEnv gemini msg waId name =
        generate_response aiProviderEnv gemini2 msg waId name) := by
  refine ⟨rfl, ?_, ?_⟩
  · intro hg ho hd
    simp [generate_response, hg, ho, hd]
  · intro h
    have hg : pyLower (aiProviderEnv.getD "gemini") ≠ "gemini" := by
      rcases h with h | h <;> rw [h] <;> decide
    constructor
    · simp [generate_response, hg, h]
    · simp [generate_response, hg, h]

/-- C10 (witness): the router theorem applied to AI_PROVIDER set to "OpenAI"
(lowercased to "openai") and two different adapter functions. -/
theorem claim_C10_router_dispatch_witness :
    generate_response (some "OpenAI") (fun _ _ _ => "A") "m" "u" "n" =
      unavailability_message
        (pyLower ((some "OpenAI" : Option String).getD "gemini")) ∧
    generate_response (some "OpenAI") (fun _ _ _ => "A") "m" "u" "n" =
      generate_response (some "OpenAI") (fun _ _ _ => "B") "m" "u" "n" :=
  (claim_C10_router_dispatch (some "OpenAI") (fun _ _ _ => "A")
    (fun _ _ _ => "B") "m" "u" "n").2.2 (Or.inl (by decide))
